import Mathlib

/-!
Shallow embedding of the Crystal ingestion pipeline (brianuuuu/crystal).

The embedding covers:
* `app/crawler/base.py`   — `BaseCrawler._is_in_date_range`, `_calculate_heat_score`;
* `app/core/utils.py`     — `truncate_text` (Python slice semantics included);
* `app/crawler/weibo.py`  — `WeiboCrawler.fetch` (page loop, card filtering,
  early-exit pagination, range filtering, item building);
* `app/crawler/xueqiu.py` — `XueqiuCrawler._fetch_user_posts` (same algorithm over
  Xueqiu statuses, whose timestamps are millisecond epoch integers);
* `app/storage/repositories.py` — `SentimentRepository.exists` / `bulk_create`
  and `JobRepository.create` / `update_status`, over an explicit store state.
  The session is created with `autoflush=False` (`app/storage/database.py`), so
  queries issued inside `bulk_create` see only committed rows; the unique
  constraints of `app/core/models.py` are enforced at commit time.
* `app/scheduler/jobs.py` — `run_daily_crystal_job`, as a pure state-passing
  function over an environment supplying targets, credentials and fetch outcomes.

Python `datetime` instants are modelled as `Int` (epoch time); an unparseable
timestamp is `none`.  Python strings are `String`, except in `truncate_text`
where `List Char` makes the slice arithmetic explicit.
-/

namespace Crystal

/-- `BaseCrawler._is_in_date_range` (app/crawler/base.py:164-175): `False` when
`posted_at` is `None`, else `from_date <= posted_at <= to_date`.  (The Python
code first strips `tzinfo`; instants here are already naive.) -/
def is_in_date_range (posted_at : Option Int) (from_date to_date : Int) : Bool :=
  match posted_at with
  | none => false
  | some t => decide (from_date ≤ t) && decide (t ≤ to_date)

/-- `BaseCrawler._calculate_heat_score` (app/crawler/base.py:157-162):
`likes + comments*2 + reposts*3` (integer-valued). -/
def calculate_heat_score (likes comments reposts : Nat) : Nat :=
  likes + comments * 2 + reposts * 3

/-- Python `s[:k]` for an integer `k`: a nonnegative `k` keeps the first `k`
characters; a negative `k` drops the last `-k` characters (empty if `-k`
exceeds the length). -/
def pySlicePrefix (s : List Char) (k : Int) : List Char :=
  if 0 ≤ k then s.take k.toNat else s.take ((s.length : Int) + k).toNat

/-- `truncate_text` (app/core/utils.py:62-66): return `text` unchanged when its
length is at most `max_length`, else `text[:max_length - 3] + "..."`. -/
def truncate_text (text : List Char) (max_length : Nat) : List Char :=
  if text.length ≤ max_length then text
  else pySlicePrefix text ((max_length : Int) - 3) ++ ['.', '.', '.']

/-- `WatchTarget` rows (app/core/models.py:77-94), the fields the crawlers read.
Optional string fields are `none` when NULL; Python truthiness of a string
field (`if not uid`) is false for both `None` and `""`. -/
structure WatchTarget where
  id : Nat
  platform : String
  target_type : String
  external_id : Option String
  symbol : Option String
  keyword : Option String
  display_name : String
  enabled : Bool
deriving DecidableEq, Repr

/-- Python truthiness test `not s` for an optional string: true for `None` and
for the empty string. -/
def pyFalsyStr : Option String → Bool
  | none => true
  | some s => s.isEmpty

/-- One `mblog` payload inside a Weibo card (app/crawler/weibo.py:80-111).
`created_at` is the result of `_parse_weibo_time` on the raw string: wall-clock
dependent parsing is outside the embedding, so the card carries the parsed
instant (`none` when unparseable). -/
structure Mblog where
  id : Nat
  text : String
  user_id : Nat
  user_name : String
  attitudes_count : Nat
  comments_count : Nat
  reposts_count : Nat
  created_at : Option Int
deriving DecidableEq, Repr

/-- One card of a Weibo API page (app/crawler/weibo.py:76-82): cards whose
`card_type` is not 9 or whose `mblog` is missing/empty are skipped. -/
structure Card where
  card_type : Nat
  mblog : Option Mblog
deriving DecidableEq, Repr

/-- The normalized item dictionary built by `BaseCrawler._build_item`
(app/crawler/base.py:63-101), restricted to the fields the claims mention.
`fetched_at` (wall clock) and the opaque `extra` payload are omitted. -/
structure Item where
  platform : String
  comment_id : String
  content : String
  author_id : String
  author_name : String
  posted_at : Option Int
  symbol : Option String
  target_id : Nat
  heat_score : Nat
deriving DecidableEq, Repr

/-- The `_build_item` call inside `WeiboCrawler.fetch` (app/crawler/weibo.py:94-112). -/
def weibo_build_item (target : WatchTarget) (m : Mblog) : Item :=
  { platform := "weibo"
    comment_id := toString m.id
    content := m.text
    author_id := toString m.user_id
    author_name := m.user_name
    posted_at := m.created_at
    symbol := target.symbol
    target_id := target.id
    heat_score := calculate_heat_score m.attitudes_count m.comments_count m.reposts_count }

/-- The per-card loop of `WeiboCrawler.fetch` (app/crawler/weibo.py:76-113):
skip non-type-9 cards and empty `mblog`s; if `posted_at` parsed and is strictly
before `from_date`, return the accumulated items (`return items`, signalled by
the `true` flag, which aborts the page loop); if not in `[from_date, to_date]`,
skip; otherwise build the item and append. -/
def weibo_process_cards (target : WatchTarget) (from_date to_date : Int) :
    List Card → List Item → List Item × Bool
  | [], acc => (acc, false)
  | card :: rest, acc =>
    if card.card_type ≠ 9 then
      weibo_process_cards target from_date to_date rest acc
    else
      match card.mblog with
      | none => weibo_process_cards target from_date to_date rest acc
      | some m =>
        if (match m.created_at with
            | some t => decide (t < from_date)
            | none => false) then
          (acc, true)
        else if ¬ is_in_date_range m.created_at from_date to_date then
          weibo_process_cards target from_date to_date rest acc
        else
          weibo_process_cards target from_date to_date rest (acc ++ [weibo_build_item target m])

/-- The page loop of `WeiboCrawler.fetch` (app/crawler/weibo.py:59-116):
`pages` is the reverse-chronological sequence of card lists the API returns
for pages 1, 2, ...; the loop stops when the page budget (`max_pages`, the
fuel) is exhausted, when a page has no cards, or when the card loop signals
the early `return items`. -/
def weibo_fetch_pages (target : WatchTarget) (from_date to_date : Int) :
    Nat → List (List Card) → List Item → List Item
  | 0, _, acc => acc
  | _ + 1, [], acc => acc
  | fuel + 1, cards :: more, acc =>
    if cards.isEmpty then acc
    else
      match weibo_process_cards target from_date to_date cards acc with
      | (items, true) => items
      | (items, false) => weibo_fetch_pages target from_date to_date fuel more items

/-- `WeiboCrawler.fetch` (app/crawler/weibo.py:24-122): an empty/missing
`external_id` logs a warning and returns the empty item list; otherwise the
page loop runs with `max_pages = 10`. -/
def weibo_fetch (target : WatchTarget) (from_date to_date : Int)
    (pages : List (List Card)) : List Item :=
  if pyFalsyStr target.external_id then []
  else weibo_fetch_pages target from_date to_date 10 pages []

/-- One status of a Xueqiu user-timeline page (app/crawler/xueqiu.py:90-119).
`created_at` is the raw millisecond epoch integer; `0` (Python falsy) means
absent. -/
structure XqStatus where
  id : Nat
  text : String
  user_id : Nat
  user_name : String
  like_count : Nat
  reply_count : Nat
  retweet_count : Nat
  created_at : Int
deriving DecidableEq, Repr

/-- `posted_at = datetime.fromtimestamp(created_at / 1000) if created_at else None`
(app/crawler/xueqiu.py:92); the instant is represented by its epoch value. -/
def xq_posted_at (created_at : Int) : Option Int :=
  if created_at ≠ 0 then some created_at else none

/-- The `_build_item` call inside `XueqiuCrawler._fetch_user_posts`
(app/crawler/xueqiu.py:102-119). -/
def xueqiu_build_item (target : WatchTarget) (s : XqStatus) : Item :=
  { platform := "xueqiu"
    comment_id := toString s.id
    content := s.text
    author_id := toString s.user_id
    author_name := s.user_name
    posted_at := xq_posted_at s.created_at
    symbol := target.symbol
    target_id := target.id
    heat_score := calculate_heat_score s.like_count s.reply_count s.retweet_count }

/-- The per-status loop of `XueqiuCrawler._fetch_user_posts`
(app/crawler/xueqiu.py:90-120): same early-exit / skip / keep policy as the
Weibo card loop. -/
def xueqiu_process_statuses (target : WatchTarget) (from_date to_date : Int) :
    List XqStatus → List Item → List Item × Bool
  | [], acc => (acc, false)
  | s :: rest, acc =>
    if (match xq_posted_at s.created_at with
        | some t => decide (t < from_date)
        | none => false) then
      (acc, true)
    else if ¬ is_in_date_range (xq_posted_at s.created_at) from_date to_date then
      xueqiu_process_statuses target from_date to_date rest acc
    else
      xueqiu_process_statuses target from_date to_date rest (acc ++ [xueqiu_build_item target s])

/-- The page loop of `XueqiuCrawler._fetch_user_posts`
(app/crawler/xueqiu.py:73-123), `max_pages = 10`. -/
def xueqiu_fetch_pages (target : WatchTarget) (from_date to_date : Int) :
    Nat → List (List XqStatus) → List Item → List Item
  | 0, _, acc => acc
  | _ + 1, [], acc => acc
  | fuel + 1, statuses :: more, acc =>
    if statuses.isEmpty then acc
    else
      match xueqiu_process_statuses target from_date to_date statuses acc with
      | (items, true) => items
      | (items, false) => xueqiu_fetch_pages target from_date to_date fuel more items

/-- `XueqiuCrawler._fetch_user_posts` (app/crawler/xueqiu.py:46-129): empty
`external_id` returns the empty list, else the page loop with `max_pages = 10`. -/
def xueqiu_fetch_user_posts (target : WatchTarget) (from_date to_date : Int)
    (pages : List (List XqStatus)) : List Item :=
  if pyFalsyStr target.external_id then []
  else xueqiu_fetch_pages target from_date to_date 10 pages []

/-- `SentimentRepository.exists` (app/storage/repositories.py:200-207): probe on
the `(platform, comment_id)` dedup key.  The store state is the list of
committed `sentiment_item` rows (sessions are created with `autoflush=False`,
app/storage/database.py:21, so pending uncommitted adds are not visible to
queries). -/
def exists_item (store : List Item) (platform comment_id : String) : Bool :=
  store.any (fun r => decide (r.platform = platform) && decide (r.comment_id = comment_id))

/-- The add loop of `SentimentRepository.bulk_create`
(app/storage/repositories.py:217-224): each candidate is `db.add`ed (pending)
iff `exists` finds no committed row with its key; returns the incremented
counter and the pending rows, in submission order. -/
def bulk_create_adds (store : List Item) : List Item → Nat × List Item
  | [] => (0, [])
  | i :: rest =>
    if exists_item store i.platform i.comment_id then bulk_create_adds store rest
    else
      let r := bulk_create_adds store rest
      (r.1 + 1, i :: r.2)

/-- Whether a row list violates the `uq_platform_comment` unique constraint
(app/core/models.py:118-119): some row's key reappears later in the list. -/
def dup_key : List Item → Bool
  | [] => false
  | i :: rest => exists_item rest i.platform i.comment_id || dup_key rest

/-- `db.commit()` under the `uq_platform_comment` constraint: flushing the
pending rows into the store raises `IntegrityError` when the combined rows
violate the unique key, else the pending rows are appended. -/
def commit_store (store pending : List Item) : Except String (List Item) :=
  if dup_key (store ++ pending) then .error "IntegrityError: uq_platform_comment"
  else .ok (store ++ pending)

/-- `SentimentRepository.bulk_create` (app/storage/repositories.py:217-225):
the add loop followed by one commit; returns `created_count` and the new
committed store. -/
def bulk_create (store : List Item) (items : List Item) : Except String (Nat × List Item) :=
  let r := bulk_create_adds store items
  (commit_store store r.2).map (fun s => (r.1, s))

/-- `DailyJobRun` rows (app/core/models.py:125-142), the fields the job logic
touches.  Wall-clock columns (`started_at`, `finished_at`, `created_at`) are
omitted. -/
structure JobRun where
  id : Nat
  date : String
  platform : String
  status : String
  total_targets : Nat
  total_items : Nat
  error_detail : Option String
deriving DecidableEq, Repr

/-- The database state the daily job touches: `daily_job_run` rows,
`sentiment_item` rows, and the autoincrement counter for job ids. -/
structure DB where
  jobs : List JobRun
  store : List Item
  next_id : Nat
deriving DecidableEq, Repr

/-- `JobRepository.create` (app/storage/repositories.py:249-260): always
INSERTs a fresh row with status `pending` and commits; the
`uq_date_platform` unique constraint (app/core/models.py:140-141) makes the
commit raise `IntegrityError` when a row with the same `(date, platform)`
already exists.  (The uniqueness probe tests the conjuncts platform-first;
conjunction order is immaterial.) -/
def job_create (db : DB) (date platform : String) : Except String (JobRun × DB) :=
  if db.jobs.any (fun j => decide (j.platform = platform) && decide (j.date = date)) then
    .error "IntegrityError: uq_date_platform"
  else
    let j : JobRun := ⟨db.next_id, date, platform, "pending", 0, 0, none⟩
    .ok (j, { db with jobs := db.jobs ++ [j], next_id := db.next_id + 1 })

/-- `JobRepository.update_status` (app/storage/repositories.py:262-284): set
`status` on the row with the given id; `total_targets` / `total_items` /
`error_detail` only when the argument is not `None`.  Job ids are unique, so
updating every matching row equals updating the first. -/
def job_update_status (db : DB) (job_id : Nat) (status : String)
    (total_targets total_items : Option Nat) (error_detail : Option String) : DB :=
  { db with jobs := db.jobs.map (fun j =>
      if j.id = job_id then
        { j with
          status := status
          total_targets := total_targets.getD j.total_targets
          total_items := total_items.getD j.total_items
          error_detail := match error_detail with
            | some e => some e
            | none => j.error_detail }
      else j) }

/-- The external world `run_daily_crystal_job` consults:
`AccountRepository.get_active_by_platform` (credentials: the cookie set of the
active account, `none` when absent), `WatchTargetRepository.get_by_platform`
(enabled targets per platform), and the outcome of `crawler.fetch` per
(platform, target id) — `.ok items` for a normal return, `.error msg` for a
raised exception. -/
structure Env where
  credentials : String → Option (List (String × String))
  targets : String → List WatchTarget
  fetch_result : String → Nat → Except String (List Item)

/-- Accumulator of the per-target loop (app/scheduler/jobs.py:88-103):
the sentiment store, this platform's created-item counter, the global target
counter, and the global error list. -/
structure TargetAcc where
  store : List Item
  platform_items : Nat
  total_targets : Nat
  errors : List String
deriving Repr

/-- One iteration of the per-target loop (app/scheduler/jobs.py:88-103):
count the target; fetch; on a raised exception append
`"{platform}/{display_name}: {msg}"` to the error list and continue; on a
normal return bulk-insert when non-empty (an `IntegrityError` from that commit
is caught by the same per-target `except`). -/
def process_target (env : Env) (platform : String) (a : TargetAcc) (target : WatchTarget) :
    TargetAcc :=
  let a := { a with total_targets := a.total_targets + 1 }
  match env.fetch_result platform target.id with
  | .error e =>
    { a with errors := a.errors ++ [platform ++ "/" ++ target.display_name ++ ": " ++ e] }
  | .ok items =>
    if items.isEmpty then a
    else
      match bulk_create a.store items with
      | .ok r => { a with store := r.2, platform_items := a.platform_items + r.1 }
      | .error e =>
        { a with errors := a.errors ++ [platform ++ "/" ++ target.display_name ++ ": " ++ e] }

/-- Accumulator of the per-platform loop (app/scheduler/jobs.py:56-121). -/
structure CycleAcc where
  db : DB
  total_items : Nat
  total_targets : Nat
  errors : List String
deriving Repr

/-- One iteration of the per-platform loop (app/scheduler/jobs.py:63-121):
create the platform `DailyJobRun` (an `IntegrityError` here escapes the whole
job), mark it `running`, look up the active account
(`cookies = account.cookies if account else {}` — no branch on absence), run
the per-target loop, and mark the platform job `success` with its counts.  The
`except` branch marking the platform job `failed` (lines 114-121) is
unreachable for the modelled operations: account lookup, crawler construction
and the per-target loop cannot raise. -/
def process_platform (env : Env) (date_str : String) (a : CycleAcc) (platform : String) :
    Except String CycleAcc :=
  match job_create a.db date_str platform with
  | .error e => .error e
  | .ok (pjob, db1) =>
    let db2 := job_update_status db1 pjob.id "running" none none none
    let _cookies := (env.credentials platform).getD []
    let targets := env.targets platform
    let r := targets.foldl (process_target env platform)
      { store := db2.store, platform_items := 0, total_targets := a.total_targets,
        errors := a.errors }
    let db3 := { db2 with store := r.store }
    let db4 := job_update_status db3 pjob.id "success" (some targets.length)
      (some r.platform_items) none
    .ok { db := db4, total_items := a.total_items + r.platform_items,
          total_targets := r.total_targets, errors := r.errors }

/-- The result dictionary of `run_daily_crystal_job` (app/scheduler/jobs.py:133-139). -/
structure RunResult where
  date : String
  status : String
  total_targets : Nat
  total_items : Nat
  errors : List String
deriving DecidableEq, Repr

/-- `platforms = [Platform.WEIBO, Platform.ZHIHU, Platform.XUEQIU]`
(app/scheduler/jobs.py:61). -/
def platforms_list : List String := ["weibo", "zhihu", "xueqiu"]

/-- The platform loop of `run_daily_crystal_job`: a raised exception aborts the
whole job (re-raised at app/scheduler/jobs.py:144-146). -/
def run_platforms (env : Env) (date_str : String) :
    List String → CycleAcc → Except String CycleAcc
  | [], a => .ok a
  | p :: ps, a =>
    match process_platform env date_str a p with
    | .error e => .error e
    | .ok a' => run_platforms env date_str ps a'

/-- `run_daily_crystal_job` (app/scheduler/jobs.py:19-148) for an explicit
date string: create the umbrella `(date, "all")` job (IntegrityError escapes),
mark it `running`, process the three platforms, then set the final status —
`success` when the error list is empty, else `partial` — together with the
totals and the newline-joined error detail. -/
def run_daily_job (env : Env) (db : DB) (date_str : String) :
    Except String (RunResult × DB) :=
  match job_create db date_str "all" with
  | .error e => .error e
  | .ok (main, db1) =>
    let db2 := job_update_status db1 main.id "running" none none none
    match run_platforms env date_str platforms_list
        { db := db2, total_items := 0, total_targets := 0, errors := [] } with
    | .error e => .error e
    | .ok a =>
      let final_status := if a.errors.isEmpty then "success" else "partial"
      let dbF := job_update_status a.db main.id final_status (some a.total_targets)
        (some a.total_items)
        (if a.errors.isEmpty then none else some (String.intercalate "\n" a.errors))
      .ok ({ date := date_str, status := final_status, total_targets := a.total_targets,
             total_items := a.total_items, errors := a.errors }, dbF)

/-! ### Concrete scenarios and witness data -/

/-- A concrete stored row, used by several witnesses. -/
def sample_item1 : Item := ⟨"weibo", "1", "c", "a", "n", some 99, none, 1, 6⟩

/-- A second concrete stored row with a distinct dedup key. -/
def sample_item2 : Item := ⟨"weibo", "2", "c", "a", "n", some 99, none, 1, 6⟩

/-- An item's `posted_at` is present and lies in the inclusive window `[f, t]`. -/
def item_in_range (f t : Int) (i : Item) : Prop :=
  ∃ tm, i.posted_at = some tm ∧ f ≤ tm ∧ tm ≤ t

/-- A concrete account target used by witnesses. -/
def sample_target : WatchTarget := ⟨1, "weibo", "account", some "u1", none, none, "T1", true⟩

/-- A concrete Weibo post payload used by witnesses. -/
def sample_mblog : Mblog := ⟨11, "txt", 7, "A", 1, 2, 3, some 99⟩

/-- A concrete one-page Weibo feed used by witnesses. -/
def sample_pages : List (List Card) := [[⟨9, some sample_mblog⟩]]

/-- An account-type target whose `external_id` is absent, violating the
`target_type` field invariant. -/
def mismatched_target : WatchTarget := ⟨1, "weibo", "account", none, none, none, "T1", true⟩

/-- An environment with no credentials, no targets and vacuous fetches. -/
def env_empty : Env := ⟨fun _ => none, fun _ => [], fun _ _ => .ok []⟩

/-- The empty initial database. -/
def db_empty : DB := ⟨[], [], 0⟩

/-- The result of a run over `env_empty` on `db_empty`. -/
def run_empty_result : RunResult := ⟨"2024-12-07", "success", 0, 0, []⟩

/-- The database left by a run over `env_empty` on `db_empty`: one umbrella
row and one row per platform, all `success`. -/
def run_empty_db : DB :=
  ⟨[⟨0, "2024-12-07", "all", "success", 0, 0, none⟩,
    ⟨1, "2024-12-07", "weibo", "success", 0, 0, none⟩,
    ⟨2, "2024-12-07", "zhihu", "success", 0, 0, none⟩,
    ⟨3, "2024-12-07", "xueqiu", "success", 0, 0, none⟩], [], 4⟩

/-- The database state after the first run for 2024-12-07. -/
def db_after_first_run : DB :=
  match run_daily_job env_empty db_empty "2024-12-07" with
  | .ok p => p.2
  | .error _ => db_empty

/-- An environment with one enabled Weibo target but no credential for any
platform; every fetch returns no items. -/
def env_nocred : Env :=
  ⟨fun _ => none, fun p => if p = "weibo" then [sample_target] else [], fun _ _ => .ok []⟩

/-- The database left by a run over `env_nocred`. -/
def db_after_nocred_run : DB :=
  match run_daily_job env_nocred db_empty "2024-12-07" with
  | .ok p => p.2
  | .error _ => db_empty

/-- First of three enabled Weibo targets in the C5 scenario. -/
def c5_t1 : WatchTarget := ⟨1, "weibo", "account", some "u1", none, none, "T1", true⟩

/-- Second of three enabled Weibo targets in the C5 scenario (its fetch raises). -/
def c5_t2 : WatchTarget := ⟨2, "weibo", "account", some "u2", none, none, "T2", true⟩

/-- Third of three enabled Weibo targets in the C5 scenario. -/
def c5_t3 : WatchTarget := ⟨3, "weibo", "account", some "u3", none, none, "T3", true⟩

/-- The C5 environment: three Weibo targets; fetching the first and third
returns `items1` / `items3`, fetching the second raises `msg`. -/
def env_c5 (msg : String) (items1 items3 : List Item) : Env :=
  ⟨fun _ => none,
   fun p => if p = "weibo" then [c5_t1, c5_t2, c5_t3] else [],
   fun p tid =>
     if p = "weibo" then
       if tid = 1 then .ok items1
       else if tid = 2 then .error msg
       else if tid = 3 then .ok items3
       else .ok []
     else .ok []⟩

/-! ### Store lemmas -/

lemma exists_item_append (s p : List Item) (a b : String) :
    exists_item (s ++ p) a b = (exists_item s a b || exists_item p a b) := by
  simp [exists_item, List.any_append]

lemma exists_item_of_mem {s : List Item} {i : Item} (h : i ∈ s) :
    exists_item s i.platform i.comment_id = true := by
  simp only [exists_item, List.any_eq_true]
  exact ⟨i, h, by simp⟩

lemma bulk_create_adds_count (store : List Item) (l : List Item) :
    (bulk_create_adds store l).1 = (bulk_create_adds store l).2.length := by
  induction l with
  | nil => rfl
  | cons i rest ih =>
    by_cases h : exists_item store i.platform i.comment_id
    · simpa [bulk_create_adds, h] using ih
    · simp [bulk_create_adds, h, ih]

lemma bulk_create_adds_mem_of_new {store : List Item} {l : List Item} {i : Item}
    (hmem : i ∈ l) (hnew : exists_item store i.platform i.comment_id = false) :
    i ∈ (bulk_create_adds store l).2 := by
  induction l with
  | nil => cases hmem
  | cons j rest ih =>
    rcases List.mem_cons.mp hmem with rfl | hmem'
    · simp [bulk_create_adds, hnew]
    · by_cases h : exists_item store j.platform j.comment_id
      · simpa [bulk_create_adds, h] using ih hmem'
      · simp only [bulk_create_adds, h, Bool.false_eq_true, if_false, List.mem_cons]
        exact Or.inr (ih hmem')

lemma bulk_create_adds_nil_of_all_exists {store : List Item} {l : List Item}
    (h : ∀ i ∈ l, exists_item store i.platform i.comment_id = true) :
    bulk_create_adds store l = (0, []) := by
  induction l with
  | nil => rfl
  | cons i rest ih =>
    have hi := h i (List.mem_cons_self i rest)
    simp only [bulk_create_adds, hi, if_true]
    exact ih fun j hj => h j (List.mem_cons_of_mem _ hj)

lemma bulk_create_ok {store items : List Item} {c : Nat} {s' : List Item}
    (h : bulk_create store items = .ok (c, s')) :
    s' = store ++ (bulk_create_adds store items).2 ∧
    c = (bulk_create_adds store items).1 ∧
    dup_key s' = false := by
  unfold bulk_create commit_store at h
  by_cases hd : dup_key (store ++ (bulk_create_adds store items).2) = true
  · simp [hd, Except.map] at h
  · simp [hd, Except.map] at h
    refine ⟨h.2.symm, h.1.symm, ?_⟩
    rw [← h.2]
    simpa using hd

/-- C2: calling `bulk_create` a second time with the same item list inserts
zero rows and leaves the stored content identical to the state after the first
call; on each call the returned count equals the number of rows actually
written (the growth of the store), not the number of items submitted. -/
theorem bulk_create_idempotent (store items : List Item) (c1 : Nat) (s1 : List Item)
    (h : bulk_create store items = .ok (c1, s1)) :
    bulk_create s1 items = .ok (0, s1) ∧ s1.length = store.length + c1 := by
  obtain ⟨hs, hc, hdup⟩ := bulk_create_ok h
  have hall : ∀ i ∈ items, exists_item s1 i.platform i.comment_id = true := by
    intro i hi
    by_cases hx : exists_item store i.platform i.comment_id = true
    · rw [hs, exists_item_append, hx, Bool.true_or]
    · have hmemp := bulk_create_adds_mem_of_new hi (by simpa using hx)
      exact exists_item_of_mem (by rw [hs]; exact List.mem_append_right _ hmemp)
  have hadds := bulk_create_adds_nil_of_all_exists hall
  constructor
  · unfold bulk_create commit_store
    rw [hadds]
    simp [hdup, Except.map]
  · rw [hs, hc, bulk_create_adds_count]
    simp

/-- Witness for `bulk_create_idempotent` at a concrete store and batch. -/
theorem bulk_create_idempotent_witness :
    bulk_create [sample_item1, sample_item2] [sample_item1, sample_item2] =
      .ok (0, [sample_item1, sample_item2]) ∧
    ([sample_item1, sample_item2] : List Item).length =
      ([sample_item1] : List Item).length + 1 :=
  bulk_create_idempotent [sample_item1] [sample_item1, sample_item2] 1
    [sample_item1, sample_item2] (by rfl)

/-! ### Truncation (C9) -/

/-- C9 counterexample: `truncate_text "abcd" 1` has length 5, not at most 1 —
the claim's bound fails for `max_length < 3` because Python's negative slice
`text[:1-3] = text[:-2]` keeps the first two characters and the three-character
ellipsis is appended. -/
theorem truncate_text_not_bounded :
    (truncate_text ['a', 'b', 'c', 'd'] 1).length = 5 ∧
    ¬ (truncate_text ['a', 'b', 'c', 'd'] 1).length ≤ 1 := by
  decide

/-- C9 amended: for every `max_length ≥ 3` the result of `truncate_text` has
length at most `max_length`, and (for every `max_length`) a text whose length
is already at most `max_length` is returned unchanged. -/
theorem truncate_text_amended (text : List Char) (n : Nat) :
    (3 ≤ n → (truncate_text text n).length ≤ n) ∧
    (text.length ≤ n → truncate_text text n = text) := by
  constructor
  · intro h3
    by_cases hle : text.length ≤ n
    · rw [truncate_text, if_pos hle]
      exact hle
    · have hk : (0 : Int) ≤ (n : Int) - 3 := by omega
      rw [truncate_text, if_neg hle, pySlicePrefix, if_pos hk]
      simp only [List.length_append, List.length_take, List.length_cons,
        List.length_nil]
      omega
  · intro h
    rw [truncate_text, if_pos h]

/-- Witness for `truncate_text_amended` at concrete texts and lengths. -/
theorem truncate_text_amended_witness :
    (truncate_text ['a', 'b', 'c', 'd', 'e'] 4).length ≤ 4 ∧
    truncate_text ['a', 'b'] 4 = ['a', 'b'] :=
  ⟨(truncate_text_amended ['a', 'b', 'c', 'd', 'e'] 4).1 (by decide),
   (truncate_text_amended ['a', 'b'] 4).2 (by decide)⟩

/-! ### Range containment (C6, C10) -/

lemma is_in_date_range_some {p : Option Int} {f t : Int}
    (h : is_in_date_range p f t = true) :
    ∃ tm, p = some tm ∧ f ≤ tm ∧ tm ≤ t := by
  cases p with
  | none => simp [is_in_date_range] at h
  | some tm =>
    simp only [is_in_date_range, Bool.and_eq_true, decide_eq_true_eq] at h
    exact ⟨tm, rfl, h.1, h.2⟩

/-! #### Step equations of the per-item loops (the early-exit / skip / keep
policy of the Range-Bounded Paginator, C1) -/

lemma weibo_cards_step_not9 (tgt : WatchTarget) (f t : Int) (ct : Nat)
    (mb : Option Mblog) (rest : List Card) (acc : List Item) (h : ct ≠ 9) :
    weibo_process_cards tgt f t (⟨ct, mb⟩ :: rest) acc =
      weibo_process_cards tgt f t rest acc := by
  simp [weibo_process_cards, h]

lemma weibo_cards_step_nomblog (tgt : WatchTarget) (f t : Int)
    (rest : List Card) (acc : List Item) :
    weibo_process_cards tgt f t (⟨9, none⟩ :: rest) acc =
      weibo_process_cards tgt f t rest acc := by
  simp [weibo_process_cards]

lemma weibo_cards_step_stop (tgt : WatchTarget) (f t : Int) (m : Mblog)
    (rest : List Card) (acc : List Item) (tm : Int)
    (hca : m.created_at = some tm) (hlt : tm < f) :
    weibo_process_cards tgt f t (⟨9, some m⟩ :: rest) acc = (acc, true) := by
  simp [weibo_process_cards, hca, hlt]

lemma weibo_cards_step_unparsed (tgt : WatchTarget) (f t : Int) (m : Mblog)
    (rest : List Card) (acc : List Item) (hca : m.created_at = none) :
    weibo_process_cards tgt f t (⟨9, some m⟩ :: rest) acc =
      weibo_process_cards tgt f t rest acc := by
  simp [weibo_process_cards, hca, is_in_date_range]

lemma weibo_cards_step_skip (tgt : WatchTarget) (f t : Int) (m : Mblog)
    (rest : List Card) (acc : List Item) (tm : Int)
    (hca : m.created_at = some tm) (hge : f ≤ tm) (hgt : t < tm) :
    weibo_process_cards tgt f t (⟨9, some m⟩ :: rest) acc =
      weibo_process_cards tgt f t rest acc := by
  have h1 : ¬ tm < f := by omega
  have h2 : ¬ tm ≤ t := by omega
  simp [weibo_process_cards, hca, is_in_date_range, h1, h2]

lemma weibo_cards_step_keep (tgt : WatchTarget) (f t : Int) (m : Mblog)
    (rest : List Card) (acc : List Item) (tm : Int)
    (hca : m.created_at = some tm) (hge : f ≤ tm) (hle : tm ≤ t) :
    weibo_process_cards tgt f t (⟨9, some m⟩ :: rest) acc =
      weibo_process_cards tgt f t rest (acc ++ [weibo_build_item tgt m]) := by
  have h1 : ¬ tm < f := by omega
  simp [weibo_process_cards, hca, is_in_date_range, h1, hge, hle]

lemma weibo_fetch_pages_stop (tgt : WatchTarget) (f t : Int) (fuel : Nat)
    (cards : List Card) (more : List (List Card)) (acc items : List Item)
    (hne : cards ≠ [])
    (hproc : weibo_process_cards tgt f t cards acc = (items, true)) :
    weibo_fetch_pages tgt f t (fuel + 1) (cards :: more) acc = items := by
  rw [weibo_fetch_pages, if_neg (by simpa [List.isEmpty_iff] using hne), hproc]

lemma xueqiu_statuses_step_stop (tgt : WatchTarget) (f t : Int) (s : XqStatus)
    (rest : List XqStatus) (acc : List Item)
    (h0 : s.created_at ≠ 0) (hlt : s.created_at < f) :
    xueqiu_process_statuses tgt f t (s :: rest) acc = (acc, true) := by
  simp [xueqiu_process_statuses, xq_posted_at, h0, hlt]

lemma xueqiu_statuses_step_unparsed (tgt : WatchTarget) (f t : Int)
    (s : XqStatus) (rest : List XqStatus) (acc : List Item)
    (h0 : s.created_at = 0) :
    xueqiu_process_statuses tgt f t (s :: rest) acc =
      xueqiu_process_statuses tgt f t rest acc := by
  simp [xueqiu_process_statuses, xq_posted_at, h0, is_in_date_range]

lemma xueqiu_statuses_step_skip (tgt : WatchTarget) (f t : Int) (s : XqStatus)
    (rest : List XqStatus) (acc : List Item)
    (h0 : s.created_at ≠ 0) (hge : f ≤ s.created_at) (hgt : t < s.created_at) :
    xueqiu_process_statuses tgt f t (s :: rest) acc =
      xueqiu_process_statuses tgt f t rest acc := by
  have h1 : ¬ s.created_at < f := by omega
  have h2 : ¬ s.created_at ≤ t := by omega
  simp [xueqiu_process_statuses, xq_posted_at, h0, is_in_date_range, h1, h2]

lemma xueqiu_statuses_step_keep (tgt : WatchTarget) (f t : Int) (s : XqStatus)
    (rest : List XqStatus) (acc : List Item)
    (h0 : s.created_at ≠ 0) (hge : f ≤ s.created_at) (hle : s.created_at ≤ t) :
    xueqiu_process_statuses tgt f t (s :: rest) acc =
      xueqiu_process_statuses tgt f t rest (acc ++ [xueqiu_build_item tgt s]) := by
  have h1 : ¬ s.created_at < f := by omega
  simp [xueqiu_process_statuses, xq_posted_at, h0, is_in_date_range, h1, hge, hle]

lemma xueqiu_fetch_pages_stop (tgt : WatchTarget) (f t : Int) (fuel : Nat)
    (statuses : List XqStatus) (more : List (List XqStatus)) (acc items : List Item)
    (hne : statuses ≠ [])
    (hproc : xueqiu_process_statuses tgt f t statuses acc = (items, true)) :
    xueqiu_fetch_pages tgt f t (fuel + 1) (statuses :: more) acc = items := by
  rw [xueqiu_fetch_pages, if_neg (by simpa [List.isEmpty_iff] using hne), hproc]

lemma weibo_process_cards_range (tgt : WatchTarget) (f t : Int) :
    ∀ (cards : List Card) (acc : List Item),
      (∀ i ∈ acc, item_in_range f t i) →
      ∀ i ∈ (weibo_process_cards tgt f t cards acc).1, item_in_range f t i := by
  intro cards
  induction cards with
  | nil =>
    intro acc hacc
    simpa [weibo_process_cards] using hacc
  | cons card rest ih =>
    intro acc hacc
    obtain ⟨ct, mb⟩ := card
    by_cases hct : ct = 9
    · subst hct
      cases mb with
      | none =>
        rw [weibo_cards_step_nomblog]
        exact ih acc hacc
      | some m =>
        cases hca : m.created_at with
        | none =>
          rw [weibo_cards_step_unparsed tgt f t m rest acc hca]
          exact ih acc hacc
        | some tm =>
          by_cases hlt : tm < f
          · rw [weibo_cards_step_stop tgt f t m rest acc tm hca hlt]
            exact hacc
          · by_cases hle : tm ≤ t
            · rw [weibo_cards_step_keep tgt f t m rest acc tm hca (by omega) hle]
              apply ih
              intro i hi
              rcases List.mem_append.mp hi with hi' | hi'
              · exact hacc i hi'
              · rcases List.mem_singleton.mp hi' with rfl
                exact ⟨tm, by simpa [weibo_build_item] using hca, by omega, hle⟩
            · rw [weibo_cards_step_skip tgt f t m rest acc tm hca (by omega) (by omega)]
              exact ih acc hacc
    · rw [weibo_cards_step_not9 tgt f t ct mb rest acc hct]
      exact ih acc hacc

lemma weibo_fetch_pages_range (tgt : WatchTarget) (f t : Int) :
    ∀ (fuel : Nat) (pages : List (List Card)) (acc : List Item),
      (∀ i ∈ acc, item_in_range f t i) →
      ∀ i ∈ weibo_fetch_pages tgt f t fuel pages acc, item_in_range f t i := by
  intro fuel
  induction fuel with
  | zero =>
    intro pages acc hacc
    simpa [weibo_fetch_pages] using hacc
  | succ n ih =>
    intro pages acc hacc
    cases pages with
    | nil => simpa [weibo_fetch_pages] using hacc
    | cons cards more =>
      simp only [weibo_fetch_pages]
      split
      · exact hacc
      · split
        · rename_i items heq
          intro i hi
          exact weibo_process_cards_range tgt f t cards acc hacc i
            (by rw [heq]; exact hi)
        · rename_i items heq
          apply ih
          intro i hi
          exact weibo_process_cards_range tgt f t cards acc hacc i (by rw [heq]; exact hi)

lemma weibo_fetch_range (tgt : WatchTarget) (f t : Int) (pages : List (List Card)) :
    ∀ i ∈ weibo_fetch tgt f t pages, item_in_range f t i := by
  unfold weibo_fetch
  split
  · simp
  · exact weibo_fetch_pages_range tgt f t 10 pages [] (by simp)

lemma xueqiu_process_statuses_range (tgt : WatchTarget) (f t : Int) :
    ∀ (statuses : List XqStatus) (acc : List Item),
      (∀ i ∈ acc, item_in_range f t i) →
      ∀ i ∈ (xueqiu_process_statuses tgt f t statuses acc).1, item_in_range f t i := by
  intro statuses
  induction statuses with
  | nil =>
    intro acc hacc
    simpa [xueqiu_process_statuses] using hacc
  | cons s rest ih =>
    intro acc hacc
    by_cases h0 : s.created_at = 0
    · rw [xueqiu_statuses_step_unparsed tgt f t s rest acc h0]
      exact ih acc hacc
    · by_cases hlt : s.created_at < f
      · rw [xueqiu_statuses_step_stop tgt f t s rest acc h0 hlt]
        exact hacc
      · by_cases hle : s.created_at ≤ t
        · rw [xueqiu_statuses_step_keep tgt f t s rest acc h0 (by omega) hle]
          apply ih
          intro i hi
          rcases List.mem_append.mp hi with hi' | hi'
          · exact hacc i hi'
          · rcases List.mem_singleton.mp hi' with rfl
            exact ⟨s.created_at, by simp [xueqiu_build_item, xq_posted_at, h0],
              by omega, hle⟩
        · rw [xueqiu_statuses_step_skip tgt f t s rest acc h0 (by omega) (by omega)]
          exact ih acc hacc

lemma xueqiu_fetch_pages_range (tgt : WatchTarget) (f t : Int) :
    ∀ (fuel : Nat) (pages : List (List XqStatus)) (acc : List Item),
      (∀ i ∈ acc, item_in_range f t i) →
      ∀ i ∈ xueqiu_fetch_pages tgt f t fuel pages acc, item_in_range f t i := by
  intro fuel
  induction fuel with
  | zero =>
    intro pages acc hacc
    simpa [xueqiu_fetch_pages] using hacc
  | succ n ih =>
    intro pages acc hacc
    cases pages with
    | nil => simpa [xueqiu_fetch_pages] using hacc
    | cons statuses more =>
      simp only [xueqiu_fetch_pages]
      split
      · exact hacc
      · split
        · rename_i items heq
          intro i hi
          exact xueqiu_process_statuses_range tgt f t statuses acc hacc i
            (by rw [heq]; exact hi)
        · rename_i items heq
          apply ih
          intro i hi
          exact xueqiu_process_statuses_range tgt f t statuses acc hacc i
            (by rw [heq]; exact hi)

lemma xueqiu_fetch_range (tgt : WatchTarget) (f t : Int)
    (pages : List (List XqStatus)) :
    ∀ i ∈ xueqiu_fetch_user_posts tgt f t pages, item_in_range f t i := by
  unfold xueqiu_fetch_user_posts
  split
  · simp
  · exact xueqiu_fetch_pages_range tgt f t 10 pages [] (by simp)

/-- C6: every item returned by `WeiboCrawler.fetch` (and by
`XueqiuCrawler._fetch_user_posts`) has a present `posted_at` with
`from_date ≤ posted_at ≤ to_date`. -/
theorem fetch_range_containment :
    (∀ (tgt : WatchTarget) (f t : Int) (pages : List (List Card)),
      ∀ i ∈ weibo_fetch tgt f t pages, item_in_range f t i) ∧
    (∀ (tgt : WatchTarget) (f t : Int) (pages : List (List XqStatus)),
      ∀ i ∈ xueqiu_fetch_user_posts tgt f t pages, item_in_range f t i) :=
  ⟨weibo_fetch_range, xueqiu_fetch_range⟩

/-- Witness for `fetch_range_containment` at a concrete fetch. -/
theorem fetch_range_containment_witness :
    item_in_range 95 100 (weibo_build_item sample_target sample_mblog) :=
  fetch_range_containment.1 sample_target 95 100 sample_pages
    (weibo_build_item sample_target sample_mblog) (by decide)

/-- C10: the shared date-range membership check returns `False` when
`posted_at` is absent (`None`), for every requested window; consequently an
item whose timestamp could not be parsed never appears in a fetch result. -/
theorem date_range_none_excluded :
    (∀ f t : Int, is_in_date_range none f t = false) ∧
    (∀ (tgt : WatchTarget) (f t : Int) (pages : List (List Card)),
      ∀ i ∈ weibo_fetch tgt f t pages, i.posted_at ≠ none) ∧
    (∀ (tgt : WatchTarget) (f t : Int) (pages : List (List XqStatus)),
      ∀ i ∈ xueqiu_fetch_user_posts tgt f t pages, i.posted_at ≠ none) := by
  refine ⟨fun f t => rfl, ?_, ?_⟩
  · intro tgt f t pages i hi
    obtain ⟨tm, hp, -, -⟩ := weibo_fetch_range tgt f t pages i hi
    simp [hp]
  · intro tgt f t pages i hi
    obtain ⟨tm, hp, -, -⟩ := xueqiu_fetch_range tgt f t pages i hi
    simp [hp]

/-- Witness for `date_range_none_excluded` at a concrete fetch. -/
theorem date_range_none_excluded_witness :
    (weibo_build_item sample_target sample_mblog).posted_at ≠ none :=
  date_range_none_excluded.2.1 sample_target 95 100 sample_pages
    (weibo_build_item sample_target sample_mblog) (by decide)

/-! ### The Range-Bounded Paginator policy (C1) -/

/-- C1: over a reverse-chronological page sequence, for every item the
per-item loop encounters — in the Weibo account fetch and in the Xueqiu user
fetch alike — a `posted_at` strictly earlier than `from_date` stops pagination
immediately and returns exactly the items collected so far (the rest of that
page is not processed, and, by the page-loop clause, no further page is read);
a `posted_at` strictly later than `to_date` skips the item and continues; a
`posted_at` inside `[from_date, to_date]` appends the normalized item and
continues. -/
theorem paginator_early_exit_policy :
    (∀ (tgt : WatchTarget) (f t : Int) (m : Mblog) (rest : List Card)
       (acc : List Item) (tm : Int), m.created_at = some tm → tm < f →
       weibo_process_cards tgt f t (⟨9, some m⟩ :: rest) acc = (acc, true)) ∧
    (∀ (tgt : WatchTarget) (f t : Int) (m : Mblog) (rest : List Card)
       (acc : List Item) (tm : Int), m.created_at = some tm → f ≤ tm → t < tm →
       weibo_process_cards tgt f t (⟨9, some m⟩ :: rest) acc =
         weibo_process_cards tgt f t rest acc) ∧
    (∀ (tgt : WatchTarget) (f t : Int) (m : Mblog) (rest : List Card)
       (acc : List Item) (tm : Int), m.created_at = some tm → f ≤ tm → tm ≤ t →
       weibo_process_cards tgt f t (⟨9, some m⟩ :: rest) acc =
         weibo_process_cards tgt f t rest (acc ++ [weibo_build_item tgt m])) ∧
    (∀ (tgt : WatchTarget) (f t : Int) (fuel : Nat) (cards : List Card)
       (more : List (List Card)) (acc items : List Item), cards ≠ [] →
       weibo_process_cards tgt f t cards acc = (items, true) →
       weibo_fetch_pages tgt f t (fuel + 1) (cards :: more) acc = items) ∧
    (∀ (tgt : WatchTarget) (f t : Int) (s : XqStatus) (rest : List XqStatus)
       (acc : List Item), s.created_at ≠ 0 → s.created_at < f →
       xueqiu_process_statuses tgt f t (s :: rest) acc = (acc, true)) ∧
    (∀ (tgt : WatchTarget) (f t : Int) (s : XqStatus) (rest : List XqStatus)
       (acc : List Item), s.created_at ≠ 0 → f ≤ s.created_at → t < s.created_at →
       xueqiu_process_statuses tgt f t (s :: rest) acc =
         xueqiu_process_statuses tgt f t rest acc) ∧
    (∀ (tgt : WatchTarget) (f t : Int) (s : XqStatus) (rest : List XqStatus)
       (acc : List Item), s.created_at ≠ 0 → f ≤ s.created_at → s.created_at ≤ t →
       xueqiu_process_statuses tgt f t (s :: rest) acc =
         xueqiu_process_statuses tgt f t rest (acc ++ [xueqiu_build_item tgt s])) ∧
    (∀ (tgt : WatchTarget) (f t : Int) (fuel : Nat) (statuses : List XqStatus)
       (more : List (List XqStatus)) (acc items : List Item), statuses ≠ [] →
       xueqiu_process_statuses tgt f t statuses acc = (items, true) →
       xueqiu_fetch_pages tgt f t (fuel + 1) (statuses :: more) acc = items) :=
  ⟨fun tgt f t m rest acc tm => weibo_cards_step_stop tgt f t m rest acc tm,
   fun tgt f t m rest acc tm hca hge hgt =>
     weibo_cards_step_skip tgt f t m rest acc tm hca hge hgt,
   fun tgt f t m rest acc tm => weibo_cards_step_keep tgt f t m rest acc tm,
   fun tgt f t fuel cards more acc items =>
     weibo_fetch_pages_stop tgt f t fuel cards more acc items,
   fun tgt f t s rest acc => xueqiu_statuses_step_stop tgt f t s rest acc,
   fun tgt f t s rest acc => xueqiu_statuses_step_skip tgt f t s rest acc,
   fun tgt f t s rest acc => xueqiu_statuses_step_keep tgt f t s rest acc,
   fun tgt f t fuel statuses more acc items =>
     xueqiu_fetch_pages_stop tgt f t fuel statuses more acc items⟩

/-- Witness for `paginator_early_exit_policy`: a concrete too-old post stops
the card loop at once, returning the single already-collected item. -/
theorem paginator_early_exit_policy_witness :
    weibo_process_cards sample_target 95 100
        (⟨9, some ⟨12, "old", 7, "A", 0, 0, 0, some 90⟩⟩ :: sample_pages.head!)
        [weibo_build_item sample_target sample_mblog] =
      ([weibo_build_item sample_target sample_mblog], true) :=
  paginator_early_exit_policy.1 sample_target 95 100
    ⟨12, "old", 7, "A", 0, 0, 0, some 90⟩ sample_pages.head!
    [weibo_build_item sample_target sample_mblog] 90 rfl (by decide)

/-! ### Mismatched targets (C8) -/

/-- C8 counterexample: `WeiboCrawler.fetch` on an account-type target with no
`external_id` does not fail with a configuration error — it returns the
ordinary empty item list, even on pages from which a well-formed target
harvests an item. -/
theorem fetch_mismatched_target_no_error :
    weibo_fetch mismatched_target 95 100 sample_pages = [] ∧
    weibo_fetch sample_target 95 100 sample_pages ≠ [] := by
  decide

/-- C8 amended: an adapter receiving a target that lacks the field its fetch
path requires logs a warning and returns the empty item list (skipping the
target) instead of failing fast with a configuration error. -/
theorem fetch_mismatched_target_skips (tgt : WatchTarget) (f t : Int)
    (wpages : List (List Card)) (xpages : List (List XqStatus))
    (h : pyFalsyStr tgt.external_id = true) :
    weibo_fetch tgt f t wpages = [] ∧
    xueqiu_fetch_user_posts tgt f t xpages = [] := by
  rw [weibo_fetch, xueqiu_fetch_user_posts, if_pos h, if_pos h]
  exact ⟨rfl, rfl⟩

/-- Witness for `fetch_mismatched_target_skips` at a concrete target. -/
theorem fetch_mismatched_target_skips_witness :
    weibo_fetch mismatched_target 95 100 sample_pages = [] ∧
    xueqiu_fetch_user_posts mismatched_target 95 100 [] = [] :=
  fetch_mismatched_target_skips mismatched_target 95 100 sample_pages [] (by decide)

/-! ### The daily run (C3, C4, C5, C7) -/

/-- C3: the code violates the upsert claim.  The first cycle for a date
succeeds, but invoking the cycle again for the same date raises
`IntegrityError` on the `(date, platform)` unique key, because
`JobRepository.create` always INSERTs a fresh row and never fetches/updates
the existing one — the second invocation neither updates the record nor
completes. -/
theorem rerun_same_date_raises :
    run_daily_job env_empty db_empty "2024-12-07" =
      .ok (run_empty_result, run_empty_db) ∧
    run_daily_job env_empty db_after_first_run "2024-12-07" =
      .error "IntegrityError: uq_date_platform" :=
  ⟨rfl, rfl⟩

/-- C4 counterexample: with no active credential for Weibo, the coordinator
does not record the Weibo run as `failed` — the platform row ends `success`
and no row at all is `failed` (the code proceeds with empty cookies,
`cookies = account.cookies if account else {}`). -/
theorem missing_credential_not_failed :
    (∃ j ∈ db_after_nocred_run.jobs, j.platform = "weibo" ∧ j.status = "success") ∧
    ∀ j ∈ db_after_nocred_run.jobs, j.status ≠ "failed" := by
  decide

/-- C4 amended: credential absence does not alter the cycle at all — the run
is identical (same statuses, same stores, same result) for any two credential
providers, given the same targets and fetch outcomes; in particular a platform
without credentials is still processed, is never marked `failed` for the
missing credential, and never blocks the remaining platforms. -/
theorem run_ignores_credentials (c c' : String → Option (List (String × String)))
    (tg : String → List WatchTarget) (fr : String → Nat → Except String (List Item))
    (db : DB) (d : String) :
    run_daily_job ⟨c, tg, fr⟩ db d = run_daily_job ⟨c', tg, fr⟩ db d :=
  rfl

/-- C7: after a completed cycle, the umbrella run's status is `success` when
no platform or target produced any error text and `partial` whenever some
error text was produced; it is never `failed` (the final status is computed
only from the error list, so the claim's "`failed` only if nothing could run
at all" holds vacuously). -/
theorem umbrella_final_status (env : Env) (db : DB) (d : String)
    (r : RunResult) (db' : DB) (h : run_daily_job env db d = .ok (r, db')) :
    (r.errors = [] → r.status = "success") ∧
    (r.errors ≠ [] → r.status = "partial") ∧
    r.status ≠ "failed" := by
  unfold run_daily_job at h
  cases hjc : job_create db d "all" with
  | error e => rw [hjc] at h; cases h
  | ok p =>
    obtain ⟨main, db1⟩ := p
    rw [hjc] at h
    simp only at h
    cases hrp : run_platforms env d platforms_list
        { db := job_update_status db1 main.id "running" none none none,
          total_items := 0, total_targets := 0, errors := [] } with
    | error e => rw [hrp] at h; cases h
    | ok a =>
      rw [hrp] at h
      simp only [Except.ok.injEq, Prod.mk.injEq] at h
      obtain ⟨hres, -⟩ := h
      subst hres
      by_cases he : a.errors.isEmpty
      · have : a.errors = [] := by simpa [List.isEmpty_iff] using he
        refine ⟨fun _ => by simp [he], fun hne => absurd this hne, ?_⟩
        simp [he]
      · have hne : a.errors ≠ [] := by simpa [List.isEmpty_iff] using he
        refine ⟨fun hnil => absurd hnil hne, fun _ => by simp [he], ?_⟩
        simp [he]

lemma intercalate_singleton (s x : String) : s.intercalate [x] = x := rfl

/-- C5: when the second of three targets raises during fetch, the exception is
caught and its message recorded; the remaining targets are still fetched and
their (new) items persisted; the platform's run record ends `success`, not
`failed`; and the failing target's message appears in the umbrella record's
`error_detail` (the cycle result lists exactly that one error). -/
theorem target_failure_isolated (msg : String) (items1 items3 s0 s1 s3 : List Item)
    (c1 c3 : Nat)
    (h1ne : items1 ≠ []) (h3ne : items3 ≠ [])
    (hb1 : bulk_create s0 items1 = .ok (c1, s1))
    (hb3 : bulk_create s1 items3 = .ok (c3, s3))
    (hf1 : ∀ i ∈ items1, exists_item s0 i.platform i.comment_id = false)
    (hf3 : ∀ i ∈ items3, exists_item s1 i.platform i.comment_id = false) :
    ∃ db', run_daily_job (env_c5 msg items1 items3) ⟨[], s0, 0⟩ "2024-12-07" =
        .ok (⟨"2024-12-07", "partial", 3, c1 + c3, ["weibo/T2: " ++ msg]⟩, db') ∧
      db'.store = s3 ∧
      (∀ i ∈ items1, i ∈ db'.store) ∧
      (∀ i ∈ items3, i ∈ db'.store) ∧
      (∀ j ∈ db'.jobs, j.platform = "weibo" → j.status = "success") ∧
      (∃ j ∈ db'.jobs, j.platform = "all" ∧
        j.error_detail = some ("weibo/T2: " ++ msg)) := by
  have h1e : items1.isEmpty = false := by
    cases items1 with
    | nil => exact absurd rfl h1ne
    | cons a l => rfl
  have h3e : items3.isEmpty = false := by
    cases items3 with
    | nil => exact absurd rfl h3ne
    | cons a l => rfl
  obtain ⟨hs1, -, -⟩ := bulk_create_ok hb1
  obtain ⟨hs3, -, -⟩ := bulk_create_ok hb3
  refine ⟨⟨[⟨0, "2024-12-07", "all", "partial", 3, c1 + c3, some ("weibo/T2: " ++ msg)⟩,
      ⟨1, "2024-12-07", "weibo", "success", 3, c1 + c3, none⟩,
      ⟨2, "2024-12-07", "zhihu", "success", 0, 0, none⟩,
      ⟨3, "2024-12-07", "xueqiu", "success", 0, 0, none⟩], s3, 4⟩,
    ?_, rfl, ?_, ?_, ?_, ?_⟩
  · simp [run_daily_job, job_create, job_update_status, run_platforms, platforms_list,
      process_platform, process_target, env_c5, c5_t1, c5_t2, c5_t3, h1e, h3e, hb1, hb3,
      intercalate_singleton]
  · intro i hi
    have hmem1 : i ∈ s1 := by
      rw [hs1]
      exact List.mem_append_right _ (bulk_create_adds_mem_of_new hi (hf1 i hi))
    show i ∈ s3
    rw [hs3]
    exact List.mem_append_left _ hmem1
  · intro i hi
    show i ∈ s3
    rw [hs3]
    exact List.mem_append_right _ (bulk_create_adds_mem_of_new hi (hf3 i hi))
  · intro j hj
    simp only [List.mem_cons, List.not_mem_nil, or_false] at hj
    rcases hj with rfl | rfl | rfl | rfl <;> simp
  · exact ⟨⟨0, "2024-12-07", "all", "partial", 3, c1 + c3, some ("weibo/T2: " ++ msg)⟩,
      by simp, rfl, rfl⟩

/-- Witness for `target_failure_isolated` at a concrete scenario. -/
theorem target_failure_isolated_witness :
    ∃ db', run_daily_job (env_c5 "boom" [sample_item1] [sample_item2])
        ⟨[], [], 0⟩ "2024-12-07" =
        .ok (⟨"2024-12-07", "partial", 3, 1 + 1, ["weibo/T2: " ++ "boom"]⟩, db') ∧
      db'.store = [sample_item1, sample_item2] ∧
      (∀ i ∈ [sample_item1], i ∈ db'.store) ∧
      (∀ i ∈ [sample_item2], i ∈ db'.store) ∧
      (∀ j ∈ db'.jobs, j.platform = "weibo" → j.status = "success") ∧
      (∃ j ∈ db'.jobs, j.platform = "all" ∧
        j.error_detail = some ("weibo/T2: " ++ "boom")) :=
  target_failure_isolated "boom" [sample_item1] [sample_item2] [] [sample_item1]
    [sample_item1, sample_item2] 1 1 (by decide) (by decide) rfl rfl
    (by decide) (by decide)

/-- Witness for `umbrella_final_status` at a concrete completed run. -/
theorem umbrella_final_status_witness :
    (run_empty_result.errors = [] → run_empty_result.status = "success") ∧
    (run_empty_result.errors ≠ [] → run_empty_result.status = "partial") ∧
    run_empty_result.status ≠ "failed" :=
  umbrella_final_status env_empty db_empty "2024-12-07" run_empty_result
    run_empty_db rfl

end Crystal
